import Mathlib

set_option maxHeartbeats 1000000

/-- A window handle from the framework's window registry, identified by its
label.  Models the value returned by `app.get_webview_window`. -/
structure WebviewWindow where
  label : String
deriving Repr, DecidableEq

/-- The framework environment a run of the bootstrap executes against: the
window labels declared in the application configuration, whether the
framework's run loop starts successfully, and the process inputs
(command-line arguments and configuration pairs) that the shown code never
reads. -/
structure Env where
  windows : List String
  runOk : Bool
  args : List String
  config : List (String × String)
deriving Repr, DecidableEq

/-- Observable actions performed by the bootstrap, recorded in execution
order. -/
inductive Event where
  | builderDefault
  | registerPlugin (name : String)
  | lookupWindow (label : String)
  | openDevtools
  | eventLoopStart
deriving Repr, DecidableEq

/-- How a run of the process ends: a panic (fatal, non-zero exit) carrying a
diagnostic message, or a normal return after the GUI session ends. -/
inductive Outcome where
  | panicked (msg : String)
  | exited
deriving Repr, DecidableEq

/-- Result of executing code that may panic: either a panic with a message,
or a normal value. -/
inductive PanicOr (α : Type) where
  | panicked (msg : String)
  | value (a : α)
deriving Repr, DecidableEq

/-- The message of the panic raised by `Option::unwrap` on a missing
window. -/
def unwrapMsg : String := "called Option::unwrap() on a None value"

/-- The message passed to `.expect(...)` on the run call in `main`. -/
def runErrMsg : String := "error while running tauri application"

/-- Embeds `app.get_webview_window(label)`: looks the label up in the
framework's window registry. -/
def getWebviewWindow (env : Env) (label : String) : Option WebviewWindow :=
  if label ∈ env.windows then some ⟨label⟩ else none

/-- Embeds the `.setup(|app| ...)` closure of `main`: looks up the window
named "main" and unwraps (panicking if absent), opens the devtools panel when
compiled with debug assertions, and returns `Ok(())`.  Produces the list of
events the callback performs together with its panic-or-result. -/
def setupCallback (debugAssertions : Bool) (env : Env) :
    List Event × PanicOr (Except String Unit) :=
  match getWebviewWindow env "main" with
  | some _window =>
      (Event.lookupWindow "main" ::
        (if debugAssertions then [Event.openDevtools] else []),
       PanicOr.value (Except.ok ()))
  | none =>
      ([Event.lookupWindow "main"], PanicOr.panicked unwrapMsg)

/-- Embeds `fn main()`: build the default builder, register the shell plugin,
run the framework (which invokes the setup callback and then starts the event
loop), and `.expect` the run result.  Returns the ordered event trace of the
run and its outcome. -/
def mainProgram (debugAssertions : Bool) (env : Env) : List Event × Outcome :=
  let pre := [Event.builderDefault, Event.registerPlugin "shell"]
  match setupCallback debugAssertions env with
  | (st, PanicOr.panicked m) => (pre ++ st, Outcome.panicked m)
  | (st, PanicOr.value (Except.error _)) => (pre ++ st, Outcome.panicked runErrMsg)
  | (st, PanicOr.value (Except.ok ())) =>
      if env.runOk then
        (pre ++ st ++ [Event.eventLoopStart], Outcome.exited)
      else
        (pre ++ st, Outcome.panicked runErrMsg)

/-- Closed-form characterization of `mainProgram`, by cases on whether the
"main" window exists and whether the run loop starts. -/
theorem mainProgram_eq (d : Bool) (env : Env) :
    mainProgram d env =
      if "main" ∈ env.windows then
        (if env.runOk then
          ([Event.builderDefault, Event.registerPlugin "shell",
            Event.lookupWindow "main"] ++
            (if d then [Event.openDevtools] else []) ++ [Event.eventLoopStart],
           Outcome.exited)
         else
          ([Event.builderDefault, Event.registerPlugin "shell",
            Event.lookupWindow "main"] ++
            (if d then [Event.openDevtools] else []),
           Outcome.panicked runErrMsg))
      else
        ([Event.builderDefault, Event.registerPlugin "shell",
          Event.lookupWindow "main"],
         Outcome.panicked unwrapMsg) := by
  by_cases hw : "main" ∈ env.windows <;>
    by_cases hr : env.runOk <;>
      simp [mainProgram, setupCallback, getWebviewWindow, hw, hr]

/-- A concrete environment in which the "main" window exists and the run
loop starts. -/
def envOk : Env := ⟨["main"], true, [], []⟩

/-- A concrete environment with no windows declared. -/
def envNoMain : Env := ⟨[], true, [], []⟩

/-- A concrete environment in which the "main" window exists but the
framework run loop fails to start. -/
def envRunFail : Env := ⟨["main"], false, [], []⟩

/-- A concrete environment like `envOk` but with different command-line
arguments and configuration. -/
def envOkArgs : Env := ⟨["main"], true, ["--flag", "value"], [("key", "val")]⟩

/-- C1: in every build, if no window labelled "main" is registered when the
setup callback executes, the process terminates fatally with the unwrap
panic rather than continuing or recovering. -/
theorem absent_main_window_panics (d : Bool) (env : Env)
    (h : "main" ∉ env.windows) :
    (mainProgram d env).2 = Outcome.panicked unwrapMsg := by
  simp [mainProgram_eq, h]

/-- Witness for C1 at a concrete environment with no windows. -/
theorem absent_main_window_panics_witness :
    (mainProgram true envNoMain).2 = Outcome.panicked unwrapMsg :=
  absent_main_window_panics true envNoMain (by decide)

/-- C2: if the framework run entry point fails, the process terminates with
the descriptive expect message; there is no retry and no degraded mode. -/
theorem run_failure_terminates (d : Bool) (env : Env)
    (hw : "main" ∈ env.windows) (hr : env.runOk = false) :
    (mainProgram d env).2 = Outcome.panicked runErrMsg := by
  simp [mainProgram_eq, hw, hr]

/-- Witness for C2 at a concrete environment whose run loop fails. -/
theorem run_failure_terminates_witness :
    (mainProgram false envRunFail).2 = Outcome.panicked runErrMsg :=
  run_failure_terminates false envRunFail (by decide) (by decide)

/-- C3: in a debug build, the devtools open call happens exactly once per
start and only after the "main" window lookup succeeded; when the lookup
fails it never happens. -/
theorem debug_devtools_once_after_lookup (env : Env) :
    ("main" ∈ env.windows →
      ∃ rest, (mainProgram true env).1 =
        [Event.builderDefault, Event.registerPlugin "shell",
         Event.lookupWindow "main", Event.openDevtools] ++ rest ∧
        Event.openDevtools ∉ rest) ∧
    ("main" ∉ env.windows →
      (mainProgram true env).1.count Event.openDevtools = 0) := by
  constructor
  · intro hw
    by_cases hr : env.runOk
    · exact ⟨[Event.eventLoopStart], by simp [mainProgram_eq, hw, hr], by decide⟩
    · exact ⟨[], by simp [mainProgram_eq, hw, hr], by decide⟩
  · intro hw
    simp [mainProgram_eq, hw]

/-- Witness for C3 at a concrete debug run with the window present. -/
theorem debug_devtools_once_after_lookup_witness :
    ∃ rest, (mainProgram true envOk).1 =
      [Event.builderDefault, Event.registerPlugin "shell",
       Event.lookupWindow "main", Event.openDevtools] ++ rest ∧
      Event.openDevtools ∉ rest :=
  (debug_devtools_once_after_lookup envOk).1 (by decide)

/-- C4: in a release (non-debug) build, the devtools open call never occurs
in any run, for any environment. -/
theorem release_never_opens_devtools (env : Env) :
    (mainProgram false env).1.count Event.openDevtools = 0 := by
  by_cases hw : "main" ∈ env.windows <;>
    by_cases hr : env.runOk <;>
      simp [mainProgram_eq, hw, hr]

/-- C5: the run call is the last action of every trace in which the event
loop starts, and the entry point returns normally exactly when both the
window lookup and the run loop succeed (otherwise it ends in a panic). -/
theorem run_call_is_last (d : Bool) (env : Env) :
    (Event.eventLoopStart ∈ (mainProgram d env).1 →
      (mainProgram d env).1.getLast? = some Event.eventLoopStart) ∧
    ((mainProgram d env).2 = Outcome.exited ↔
      ("main" ∈ env.windows ∧ env.runOk = true)) := by
  by_cases hw : "main" ∈ env.windows <;>
    by_cases hr : env.runOk <;>
      cases d <;>
        simp [mainProgram_eq, hw, hr]

/-- Witness for C5 at a concrete successful run. -/
theorem run_call_is_last_witness :
    (mainProgram false envOk).1.getLast? = some Event.eventLoopStart :=
  (run_call_is_last false envOk).1 (by decide)

/-- C6: in a successful run the startup sequence is exactly: default
builder, shell-plugin registration, lookup of the "main" window, the
devtools call in debug builds only, then the event-loop start. -/
theorem startup_sequence (d : Bool) (env : Env)
    (hw : "main" ∈ env.windows) (hr : env.runOk = true) :
    (mainProgram d env).1 =
      [Event.builderDefault, Event.registerPlugin "shell",
       Event.lookupWindow "main"] ++
      (if d then [Event.openDevtools] else []) ++ [Event.eventLoopStart] := by
  simp [mainProgram_eq, hw, hr]

/-- Witness for C6 at a concrete successful debug run. -/
theorem startup_sequence_witness :
    (mainProgram true envOk).1 =
      [Event.builderDefault, Event.registerPlugin "shell",
       Event.lookupWindow "main"] ++
      (if true then [Event.openDevtools] else []) ++ [Event.eventLoopStart] :=
  startup_sequence true envOk (by decide) (by decide)

/-- C7: the code reads no command-line arguments and no configuration pairs:
two runs in environments agreeing on the framework state (declared windows
and run-loop health) but differing arbitrarily in arguments and
configuration behave identically. -/
theorem no_input_consumed (d : Bool) (e₁ e₂ : Env)
    (hw : e₁.windows = e₂.windows) (hr : e₁.runOk = e₂.runOk) :
    mainProgram d e₁ = mainProgram d e₂ := by
  rw [mainProgram_eq, mainProgram_eq, hw, hr]

/-- Witness for C7: two concrete environments differing only in arguments
and configuration produce identical runs. -/
theorem no_input_consumed_witness :
    mainProgram true envOk = mainProgram true envOkArgs :=
  no_input_consumed true envOk envOkArgs (by decide) (by decide)

/-- C8: the "main" window lookup and its panic are not build-gated: a
release build still performs the lookup and still panics fatally when the
window is absent. -/
theorem release_still_looks_up_and_panics (env : Env)
    (h : "main" ∉ env.windows) :
    (mainProgram false env).2 = Outcome.panicked unwrapMsg ∧
    Event.lookupWindow "main" ∈ (mainProgram false env).1 := by
  simp [mainProgram_eq, h]

/-- Witness for C8 at a concrete windowless environment. -/
theorem release_still_looks_up_and_panics_witness :
    (mainProgram false envNoMain).2 = Outcome.panicked unwrapMsg ∧
    Event.lookupWindow "main" ∈ (mainProgram false envNoMain).1 :=
  release_still_looks_up_and_panics envNoMain (by decide)

/-- C9: whenever the "main" window lookup succeeds, the setup callback
returns Ok(()); it never reports a recoverable setup error to the
framework. -/
theorem setup_returns_ok (d : Bool) (env : Env)
    (hw : "main" ∈ env.windows) :
    (setupCallback d env).2 = PanicOr.value (Except.ok ()) := by
  simp [setupCallback, getWebviewWindow, hw]

/-- Witness for C9 at a concrete environment with the window present. -/
theorem setup_returns_ok_witness :
    (setupCallback false envOk).2 = PanicOr.value (Except.ok ()) :=
  setup_returns_ok false envOk (by decide)

/-- C10: the shell plugin is registered exactly once, unconditionally, as
the second action of every run in every build configuration, before the
setup callback and before the event loop. -/
theorem shell_plugin_registered_once_first (d : Bool) (env : Env) :
    (mainProgram d env).1.count (Event.registerPlugin "shell") = 1 ∧
    (mainProgram d env).1.take 2 =
      [Event.builderDefault, Event.registerPlugin "shell"] := by
  by_cases hw : "main" ∈ env.windows <;>
    by_cases hr : env.runOk <;>
      cases d <;>
        simp [mainProgram_eq, hw, hr]
